import Mathlib

/-!
Verification of the custom-loss / "Price Is Right" scoring notebook.

The notebook defines a scorer class `price_is_right` (pandas-based) and four
numpy loss functions (`overprediction_penalty_objective`,
`overprediction_penalty_squared`, `overprediction_penalty_absolute`,
`overprediction_penalty_custom`) closed over a global `penalty` coefficient.
Here they are embedded shallowly over `List ℚ`:
the global `penalty` becomes an explicit parameter, numpy 1-D arrays become
lists (with numpy's 1-D broadcasting on binary operations made explicit, and
shape mismatch returning `none` where numpy raises), and the pandas pipeline
of `calculate_winnings` (zipping the two input sequences, hence silently
truncating to the shorter one) becomes a fold over `List.zip`.
-/

/-- Result triple of a LightGBM-style evaluation metric: metric name, scalar
value, and the higher-is-better flag. -/
structure EvalResult where
  name : String
  value : ℚ
  higherIsBetter : Bool

/-- Length of the numpy broadcast of two 1-D arrays: defined when the lengths
agree or one of them is 1, the result being the larger length; `none` models
the `ValueError` numpy raises on incompatible shapes. -/
def broadcastLen (m n : Nat) : Option Nat :=
  if m = n then some m
  else if m = 1 then some n
  else if n = 1 then some m
  else none

/-- Materialize a 1-D array at the broadcast length: a length-1 array is
stretched by repeating its single element. -/
def broadcastTo (xs : List ℚ) (n : Nat) : List ℚ :=
  if xs.length = n then xs else List.replicate n xs.headI

/-- Elementwise numpy binary operation on 1-D arrays with broadcasting. -/
def npBinop (f : ℚ → ℚ → ℚ) (xs ys : List ℚ) : Option (List ℚ) :=
  match broadcastLen xs.length ys.length with
  | some n => some (List.zipWith f (broadcastTo xs n) (broadcastTo ys n))
  | none => none

/-- Embeds `truth - pred` as numpy computes it (`.astype("float")` is the identity in
this rational model). -/
def npSub (xs ys : List ℚ) : Option (List ℚ) :=
  npBinop (fun a b => a - b) xs ys

/-- Embeds `np.mean`; on the empty list this rational model yields `0` (numpy yields
NaN there, a case outside every claim's precondition). -/
def npMean (xs : List ℚ) : ℚ :=
  xs.sum / (xs.length : ℚ)

/-- Per-element gradient `np.where(err < 0, -2*penalty*err, -2*err)`. -/
def objGrad (penalty e : ℚ) : ℚ :=
  if e < 0 then (-2) * penalty * e else (-2) * e

/-- Per-element hessian `np.where(err < 0, 2*penalty, 2)`. -/
def objHess (penalty e : ℚ) : ℚ :=
  if e < 0 then 2 * penalty else 2

/-- Per-element loss `np.where(err < 0, (err**2)*penalty, err**2)`. -/
def squaredLoss (penalty e : ℚ) : ℚ :=
  if e < 0 then e ^ 2 * penalty else e ^ 2

/-- Per-element loss `np.where(err < 0, abs(err)*penalty, abs(err))`. -/
def absLoss (penalty e : ℚ) : ℚ :=
  if e < 0 then |e| * penalty else |e|

/-- Per-element loss `np.where(err < 0, -pred, 0)`. -/
def customLoss (pred e : ℚ) : ℚ :=
  if e < 0 then -pred else 0

/-- Embeds `overprediction_penalty_objective(truth, pred)`: gradient and hessian
arrays from `err = truth - pred`. -/
def overprediction_penalty_objective (penalty : ℚ) (truth pred : List ℚ) :
    Option (List ℚ × List ℚ) :=
  (npSub truth pred).map fun err =>
    (err.map (objGrad penalty), err.map (objHess penalty))

/-- Embeds `overprediction_penalty_squared(truth, pred)`: name, mean loss, flag. -/
def overprediction_penalty_squared (penalty : ℚ) (truth pred : List ℚ) :
    Option EvalResult :=
  (npSub truth pred).map fun err =>
    ⟨"overprediction_squared_penalty", npMean (err.map (squaredLoss penalty)), false⟩

/-- Embeds `overprediction_penalty_absolute(truth, pred)`: name, mean loss, flag.
The source returns the same name string as the squared variant. -/
def overprediction_penalty_absolute (penalty : ℚ) (truth pred : List ℚ) :
    Option EvalResult :=
  (npSub truth pred).map fun err =>
    ⟨"overprediction_squared_penalty", npMean (err.map (absLoss penalty)), false⟩

/-- Embeds `overprediction_penalty_custom(truth, pred)`: name, mean loss, flag.
`np.where(err < 0, -pred, 0)` broadcasts `pred` against `err`. -/
def overprediction_penalty_custom (truth pred : List ℚ) : Option EvalResult :=
  (npSub truth pred).map fun err =>
    ⟨"custom_penalty", npMean (List.zipWith customLoss (broadcastTo pred err.length) err), false⟩

/-- The report computed by `price_is_right.calculate_winnings` and surfaced by
`print_results`: total winnings, total normalized winnings, the count of rows
whose winnings entry is 0, and `len(self.preds)`. -/
structure Report where
  winnings : ℚ
  winning_percent : ℚ
  overpredicted : Nat
  total : Nat

/-- Winnings column entry for one row: 0 by initialization, overwritten with
`pred` on the rows where `pred <= truth`. -/
def pairWinnings (truth pred : ℚ) : ℚ :=
  if pred ≤ truth then pred else 0

/-- Normalized-winnings column entry for one row: 0 by initialization,
overwritten with `pred / truth` on the rows where `pred <= truth`. -/
def pairPercent (truth pred : ℚ) : ℚ :=
  if pred ≤ truth then pred / truth else 0

/-- Embeds `price_is_right.calculate_winnings`: the DataFrame is built from
`zip(self.truths, self.preds)` (Python `zip` truncates to the shorter input),
the two columns are summed, and `overpredicted` counts the rows whose
winnings entry equals 0.  `total` records `len(self.preds)` as printed by
`print_results`. -/
def calculate_winnings (truths preds : List ℚ) : Report :=
  let pairs := truths.zip preds
  { winnings := (pairs.map fun tp => pairWinnings tp.1 tp.2).sum,
    winning_percent := (pairs.map fun tp => pairPercent tp.1 tp.2).sum,
    overpredicted := (pairs.filter fun tp => decide (pairWinnings tp.1 tp.2 = 0)).length,
    total := preds.length }

/-- Spec-side count (for comparison with the code): the number of
index-aligned pairs whose prediction strictly exceeds the truth. -/
def strictOverCount (truths preds : List ℚ) : Nat :=
  ((truths.zip preds).filter fun tp => decide (tp.1 < tp.2)).length

theorem calculate_winnings_cons (t p : ℚ) (ts ps : List ℚ) :
    (calculate_winnings (t :: ts) (p :: ps)).winnings
      = pairWinnings t p + (calculate_winnings ts ps).winnings
    ∧ (calculate_winnings (t :: ts) (p :: ps)).winning_percent
      = pairPercent t p + (calculate_winnings ts ps).winning_percent := by
  simp [calculate_winnings]

theorem npSub_eq_of_length_eq (xs ys : List ℚ) (h : xs.length = ys.length) :
    npSub xs ys = some (List.zipWith (fun a b => a - b) xs ys) := by
  simp [npSub, npBinop, broadcastLen, h, broadcastTo]

theorem zip_take_eq (ts ps : List ℚ) :
    ts.zip ps = (ts.take ps.length).zip (ps.take ts.length) := by
  induction ts generalizing ps with
  | nil => simp
  | cons t ts ih =>
    cases ps with
    | nil => simp
    | cons p ps => simp [List.zip_cons_cons, ih]

theorem zipWith_customLoss_sub (ts qs : List ℚ) :
    List.zipWith customLoss qs (List.zipWith (fun a b => a - b) ts qs)
      = List.zipWith (fun t q => if t - q < 0 then -q else 0) ts qs := by
  induction ts generalizing qs with
  | nil => simp
  | cons t ts ih =>
    cases qs with
    | nil => simp
    | cons q qs => simp [customLoss, ih]

/-- C1: In `calculate_winnings`, a pair with prediction > truth contributes
exactly 0 to both the total winnings and the normalized winnings; a pair with
prediction ≤ truth (the boundary counts as not over) contributes exactly
`prediction` to the total winnings and exactly `prediction / truth` to the
normalized winnings, given truth ≠ 0; and for truths = [10],
predictions = [10] the total winnings equal 10. -/
theorem winnings_pair_contribution (ts ps : List ℚ) (t p : ℚ) (ht : t ≠ 0) :
    ((t < p →
        (calculate_winnings (t :: ts) (p :: ps)).winnings
            = (calculate_winnings ts ps).winnings
        ∧ (calculate_winnings (t :: ts) (p :: ps)).winning_percent
            = (calculate_winnings ts ps).winning_percent)
    ∧ (p ≤ t →
        (calculate_winnings (t :: ts) (p :: ps)).winnings
            = p + (calculate_winnings ts ps).winnings
        ∧ (calculate_winnings (t :: ts) (p :: ps)).winning_percent
            = p / t + (calculate_winnings ts ps).winning_percent))
  ∧ (calculate_winnings [10] [10]).winnings = 10 := by
  refine ⟨⟨fun hlt => ?_, fun hle => ?_⟩, ?_⟩
  · have h1 := calculate_winnings_cons t p ts ps
    have hp : ¬ p ≤ t := not_le.mpr hlt
    rw [h1.1, h1.2]
    simp [pairWinnings, pairPercent, hp]
  · have h1 := calculate_winnings_cons t p ts ps
    rw [h1.1, h1.2]
    simp [pairWinnings, pairPercent, hle]
  · norm_num [calculate_winnings, pairWinnings]

theorem winnings_pair_contribution_witness :
    (calculate_winnings [(2:ℚ)] [(1:ℚ)]).winnings
        = 1 + (calculate_winnings ([] : List ℚ) ([] : List ℚ)).winnings
    ∧ (calculate_winnings [(2:ℚ)] [(1:ℚ)]).winning_percent
        = 1 / 2 + (calculate_winnings ([] : List ℚ) ([] : List ℚ)).winning_percent :=
  (winnings_pair_contribution [] [] 2 1 (by norm_num)).1.2 (by norm_num)

/-- C2 counterexample: on truths = [10], predictions = [0], the prediction
does not exceed the truth (so the strict over-prediction count is 0), yet
`calculate_winnings` reports `overpredicted = 1`, because the code counts the
rows whose winnings entry equals 0 and a zero prediction yields zero
winnings. -/
theorem overpredicted_count_counterexample :
    (calculate_winnings [10] [0]).overpredicted ≠ strictOverCount [10] [0]
  ∧ (calculate_winnings [10] [0]).overpredicted = 1
  ∧ strictOverCount [10] [0] = 0 := by
  refine ⟨?_, ?_, ?_⟩ <;>
    norm_num [calculate_winnings, strictOverCount, pairWinnings]

/-- C2 amended: the `overpredicted` field of `calculate_winnings` equals the
number of index-aligned pairs whose winnings entry is zero, i.e. pairs with
prediction strictly greater than truth or prediction equal to 0 (it
coincides with the strict over-prediction count whenever no prediction is
exactly 0); the scenario truths = [10, 10], predictions = [7, 11] yields
count 1, winnings 7 and normalized winnings 0.7. -/
theorem overpredicted_count_eq_zero_winnings :
    (∀ ts ps : List ℚ,
        (calculate_winnings ts ps).overpredicted
          = ((ts.zip ps).filter fun tp =>
              decide (tp.1 < tp.2) || decide (tp.2 = 0)).length)
  ∧ (calculate_winnings [10, 10] [7, 11]).overpredicted = 1
  ∧ (calculate_winnings [10, 10] [7, 11]).winnings = 7
  ∧ (calculate_winnings [10, 10] [7, 11]).winning_percent = 7 / 10 := by
  refine ⟨fun ts ps => ?_, ?_, ?_, ?_⟩
  · simp only [calculate_winnings]
    congr 1
    refine List.filter_congr fun tp _ => ?_
    by_cases h : tp.2 ≤ tp.1
    · simp [pairWinnings, h, not_lt.mpr h]
    · simp [pairWinnings, h, not_le.mp h]
  all_goals norm_num [calculate_winnings, pairWinnings, pairPercent]

/-- C3: for equal-length inputs, `overprediction_penalty_objective` returns
per pair (with err = truth - pred) the gradient -2*penalty*err and curvature
2*penalty when err < 0, and the gradient -2*err and curvature 2 when
err ≥ 0; moreover on the err ≥ 0 branch (which includes err = 0) both the
gradient and the curvature are independent of the penalty coefficient. -/
theorem objective_gradient_curvature (penalty : ℚ) (truth pred : List ℚ)
    (hlen : truth.length = pred.length) :
    overprediction_penalty_objective penalty truth pred
      = some
          (List.zipWith
            (fun t q => if t - q < 0 then (-2) * penalty * (t - q) else (-2) * (t - q))
            truth pred,
           List.zipWith (fun t q => if t - q < 0 then 2 * penalty else 2) truth pred)
  ∧ (∀ e : ℚ, 0 ≤ e → ∀ P1 P2 : ℚ,
      objGrad P1 e = objGrad P2 e ∧ objHess P1 e = objHess P2 e) := by
  constructor
  · simp [overprediction_penalty_objective, npSub_eq_of_length_eq _ _ hlen,
      List.map_zipWith, objGrad, objHess]
  · intro e he P1 P2
    simp [objGrad, objHess, not_lt.mpr he]

theorem objective_gradient_curvature_witness :
    (overprediction_penalty_objective 3 [(10:ℚ)] [(12:ℚ)]
      = some
          (List.zipWith
            (fun t q => if t - q < 0 then (-2) * 3 * (t - q) else (-2) * (t - q))
            [(10:ℚ)] [(12:ℚ)],
           List.zipWith (fun t q => if t - q < 0 then 2 * 3 else 2) [(10:ℚ)] [(12:ℚ)]))
  ∧ (objGrad 3 0 = objGrad 12 0 ∧ objHess 3 0 = objHess 12 0) :=
  ⟨(objective_gradient_curvature 3 [10] [12] rfl).1,
   (objective_gradient_curvature 3 [10] [12] rfl).2 0 le_rfl 3 12⟩

/-- C4: for equal-length non-empty inputs, `overprediction_penalty_squared`
and `overprediction_penalty_absolute` each return the arithmetic mean over
all pairs of the per-pair loss — err^2*penalty (respectively
abs(err)*penalty) when err = truth - pred < 0, and err^2 (respectively
abs(err)) when err ≥ 0 — together with a metric name and a higher-is-better
flag that is false. -/
theorem squared_absolute_eval_mean (penalty : ℚ) (truth pred : List ℚ)
    (hlen : truth.length = pred.length) (hne : truth ≠ []) :
    overprediction_penalty_squared penalty truth pred
      = some ⟨"overprediction_squared_penalty",
          (List.zipWith
            (fun t q => if t - q < 0 then (t - q) ^ 2 * penalty else (t - q) ^ 2)
            truth pred).sum / (truth.length : ℚ),
          false⟩
  ∧ overprediction_penalty_absolute penalty truth pred
      = some ⟨"overprediction_squared_penalty",
          (List.zipWith
            (fun t q => if t - q < 0 then |t - q| * penalty else |t - q|)
            truth pred).sum / (truth.length : ℚ),
          false⟩ := by
  constructor
  · simp [overprediction_penalty_squared, npSub_eq_of_length_eq _ _ hlen,
      npMean, List.map_zipWith, squaredLoss, List.length_zipWith, hlen]
  · simp [overprediction_penalty_absolute, npSub_eq_of_length_eq _ _ hlen,
      npMean, List.map_zipWith, absLoss, List.length_zipWith, hlen]

theorem squared_absolute_eval_mean_witness :
    overprediction_penalty_squared 3 [(10:ℚ)] [(8:ℚ)]
      = some ⟨"overprediction_squared_penalty",
          (List.zipWith
            (fun t q => if t - q < 0 then (t - q) ^ 2 * 3 else (t - q) ^ 2)
            [(10:ℚ)] [(8:ℚ)]).sum / (([(10:ℚ)].length : ℕ) : ℚ),
          false⟩ :=
  (squared_absolute_eval_mean 3 [10] [8] rfl (by simp)).1

/-- C7: for equal-length non-empty inputs, `overprediction_penalty_custom`
returns the arithmetic mean of the per-pair losses, where the per-pair loss
is -pred when err = truth - pred < 0 and 0 when err ≥ 0, with the
higher-is-better flag false; on truths = [10], predictions = [12] the value
is -12, and on truths = [10], predictions = [8] the value is 0. -/
theorem custom_eval_mean (truth pred : List ℚ)
    (hlen : truth.length = pred.length) (hne : truth ≠ []) :
    overprediction_penalty_custom truth pred
      = some ⟨"custom_penalty",
          (List.zipWith (fun t q => if t - q < 0 then -q else 0) truth pred).sum
            / (truth.length : ℚ),
          false⟩
  ∧ overprediction_penalty_custom [10] [12] = some ⟨"custom_penalty", -12, false⟩
  ∧ overprediction_penalty_custom [10] [8] = some ⟨"custom_penalty", 0, false⟩ := by
  refine ⟨?_, ?_, ?_⟩
  · have herr : (List.zipWith (fun a b : ℚ => a - b) truth pred).length = pred.length := by
      simp [List.length_zipWith, hlen]
    simp [overprediction_penalty_custom, npSub_eq_of_length_eq _ _ hlen,
      npMean, broadcastTo, herr, zipWith_customLoss_sub, List.length_zipWith, hlen]
  all_goals
    norm_num [overprediction_penalty_custom, npSub, npBinop, broadcastLen,
      broadcastTo, npMean, customLoss]

theorem custom_eval_mean_witness :
    overprediction_penalty_custom [(10:ℚ)] [(12:ℚ)]
      = some ⟨"custom_penalty",
          (List.zipWith (fun t q => if t - q < 0 then -q else 0)
            [(10:ℚ)] [(12:ℚ)]).sum / (([(10:ℚ)].length : ℕ) : ℚ),
          false⟩ :=
  (custom_eval_mean [10] [12] rfl (by simp)).1

/-- C5 counterexample: on the mismatched input truths = [10, 10],
predictions = [7], `calculate_winnings` does not abort: it silently drops the
unmatched truth and returns a report computed from the truncated pairs
(winnings 7, normalized winnings 0.7, over-prediction count 0, and a printed
denominator of 1 prediction). -/
theorem mismatch_scorer_counterexample :
    (calculate_winnings [10, 10] [7]).winnings = 7
  ∧ (calculate_winnings [10, 10] [7]).winning_percent = 7 / 10
  ∧ (calculate_winnings [10, 10] [7]).overpredicted = 0
  ∧ (calculate_winnings [10, 10] [7]).total = 1 := by
  refine ⟨?_, ?_, ?_, rfl⟩ <;>
    norm_num [calculate_winnings, pairWinnings, pairPercent]

/-- C5 amended: on a length mismatch the four numpy loss functions abort
(return no result) provided neither sequence has length 1 — when one side has
length 1, numpy broadcasting stretches it and a result is returned instead —
while the Outcome Scorer never aborts: `calculate_winnings` computes its
winnings sums and its over-prediction count from the sequences truncated to
the common length (Python `zip`), and reports `len(preds)` as the total. -/
theorem length_mismatch_behavior (penalty : ℚ) (truth pred : List ℚ)
    (hne : truth.length ≠ pred.length) (ht1 : truth.length ≠ 1)
    (hp1 : pred.length ≠ 1) :
    (overprediction_penalty_objective penalty truth pred = none
      ∧ overprediction_penalty_squared penalty truth pred = none
      ∧ overprediction_penalty_absolute penalty truth pred = none
      ∧ overprediction_penalty_custom truth pred = none)
  ∧ ∀ ts ps : List ℚ,
      (calculate_winnings ts ps).winnings
          = (calculate_winnings (ts.take ps.length) (ps.take ts.length)).winnings
      ∧ (calculate_winnings ts ps).winning_percent
          = (calculate_winnings (ts.take ps.length) (ps.take ts.length)).winning_percent
      ∧ (calculate_winnings ts ps).overpredicted
          = (calculate_winnings (ts.take ps.length) (ps.take ts.length)).overpredicted
      ∧ (calculate_winnings ts ps).total = ps.length := by
  have hnone : npSub truth pred = none := by
    simp [npSub, npBinop, broadcastLen, hne, ht1, hp1]
  constructor
  · simp [overprediction_penalty_objective, overprediction_penalty_squared,
      overprediction_penalty_absolute, overprediction_penalty_custom, hnone]
  · intro ts ps
    refine ⟨?_, ?_, ?_, rfl⟩ <;> simp [calculate_winnings, ← zip_take_eq]

theorem length_mismatch_behavior_witness :
    overprediction_penalty_objective 3 [(1:ℚ), 2, 3] [(4:ℚ), 5] = none
  ∧ overprediction_penalty_squared 3 [(1:ℚ), 2, 3] [(4:ℚ), 5] = none
  ∧ overprediction_penalty_absolute 3 [(1:ℚ), 2, 3] [(4:ℚ), 5] = none
  ∧ overprediction_penalty_custom [(1:ℚ), 2, 3] [(4:ℚ), 5] = none :=
  (length_mismatch_behavior 3 [1, 2, 3] [4, 5] (by decide) (by decide)
    (by decide)).1

/-- C6 counterexample: on truths = [10], predictions = [-5], the single pair
does not over-predict, so its (negative) prediction is kept as its winnings
contribution and the total winnings of `calculate_winnings` are -5 < 0. -/
theorem negative_prediction_winnings_counterexample :
    (calculate_winnings [10] [-5]).winnings = -5
  ∧ (calculate_winnings [10] [-5]).winnings < 0 := by
  constructor <;> norm_num [calculate_winnings, pairWinnings]

/-- C6 amended: when every prediction is nonnegative, every pair's winnings
contribution is nonnegative and the total winnings of `calculate_winnings`
are nonnegative; in general a pair whose (possibly negative) prediction does
not exceed its truth contributes that prediction, so totals can be
negative. -/
theorem winnings_nonneg_of_nonneg_preds (ts ps : List ℚ)
    (h : ∀ q ∈ ps, 0 ≤ q) :
    (∀ t q : ℚ, 0 ≤ q → 0 ≤ pairWinnings t q)
  ∧ 0 ≤ (calculate_winnings ts ps).winnings := by
  have hpw : ∀ t q : ℚ, 0 ≤ q → 0 ≤ pairWinnings t q := by
    intro t q hq
    unfold pairWinnings
    split
    · exact hq
    · exact le_rfl
  refine ⟨hpw, ?_⟩
  simp only [calculate_winnings]
  apply List.sum_nonneg
  intro x hx
  simp only [List.mem_map] at hx
  obtain ⟨tp, htp, rfl⟩ := hx
  exact hpw tp.1 tp.2 (h tp.2 (List.of_mem_zip htp).2)

theorem winnings_nonneg_of_nonneg_preds_witness :
    0 ≤ pairWinnings 10 5 ∧ 0 ≤ (calculate_winnings [(10:ℚ)] [(5:ℚ)]).winnings :=
  ⟨(winnings_nonneg_of_nonneg_preds [10] [5] (by norm_num)).1 10 5 (by norm_num),
   (winnings_nonneg_of_nonneg_preds [10] [5] (by norm_num)).2⟩

/-- C8: replacing a single strictly-under prediction by any value between its
old value and its truth (without crossing the truth) never decreases the
total winnings of `calculate_winnings`, all other pairs unchanged. -/
theorem winnings_monotone_under_prediction (i : ℕ) :
    ∀ (ts ps : List ℚ) (q : ℚ), ∀ hti : i < ts.length, ∀ hpi : i < ps.length,
      ps[i] < ts[i] → ps[i] ≤ q → q ≤ ts[i] →
      (calculate_winnings ts ps).winnings
        ≤ (calculate_winnings ts (ps.set i q)).winnings := by
  induction i with
  | zero =>
    intro ts ps q hti hpi hover hlo hhi
    cases ts with
    | nil => simp at hti
    | cons t ts =>
      cases ps with
      | nil => simp at hpi
      | cons p ps =>
        simp only [List.getElem_cons_zero] at hover hlo hhi
        simp only [List.set_cons_zero]
        rw [(calculate_winnings_cons t p ts ps).1,
          (calculate_winnings_cons t q ts ps).1]
        have hp : pairWinnings t p = p := by
          simp [pairWinnings, le_of_lt hover]
        have hq : pairWinnings t q = q := by
          simp [pairWinnings, hhi]
        rw [hp, hq]
        exact add_le_add_right hlo _
  | succ i ih =>
    intro ts ps q hti hpi hover hlo hhi
    cases ts with
    | nil => simp at hti
    | cons t ts =>
      cases ps with
      | nil => simp at hpi
      | cons p ps =>
        simp only [List.getElem_cons_succ] at hover hlo hhi
        have hti2 : i < ts.length := by simpa using hti
        have hpi2 : i < ps.length := by simpa using hpi
        simp only [List.set_cons_succ]
        rw [(calculate_winnings_cons t p ts ps).1,
          (calculate_winnings_cons t p ts (ps.set i q)).1]
        exact add_le_add_left (ih ts ps q hti2 hpi2 hover hlo hhi) _

theorem winnings_monotone_under_prediction_witness :
    (calculate_winnings [(10:ℚ)] [(7:ℚ)]).winnings
      ≤ (calculate_winnings [(10:ℚ)] ([(7:ℚ)].set 0 9)).winnings :=
  winnings_monotone_under_prediction 0 [10] [7] 9 (by norm_num) (by norm_num)
    (by norm_num) (by norm_num) (by norm_num)

/-- C9: for a fixed over-predicted error e < 0, each of the squared per-pair
loss, the absolute per-pair loss and the gradient magnitude of the objective
is strictly increasing in the penalty coefficient: for 0 < P1 < P2 (such as
3 and 12) the cost under P2 strictly exceeds the cost under P1. -/
theorem penalty_strict_monotone (e P1 P2 : ℚ) (he : e < 0) (h1 : 0 < P1)
    (h12 : P1 < P2) :
    squaredLoss P1 e < squaredLoss P2 e
  ∧ absLoss P1 e < absLoss P2 e
  ∧ |objGrad P1 e| < |objGrad P2 e| := by
  have h2 : (0:ℚ) < P2 := h1.trans h12
  have hee : (0:ℚ) < e * e := mul_pos_of_neg_of_neg he he
  have he2 : (0:ℚ) < e ^ 2 := by rw [pow_two]; exact hee
  have habs : (0:ℚ) < |e| := abs_pos.mpr (ne_of_lt he)
  simp only [squaredLoss, absLoss, objGrad, if_pos he]
  refine ⟨?_, ?_, ?_⟩
  · exact mul_lt_mul_of_pos_left h12 he2
  · exact mul_lt_mul_of_pos_left h12 habs
  · have g1 : (0:ℚ) < (-2) * P1 * e := by nlinarith
    have g2 : (0:ℚ) < (-2) * P2 * e := by nlinarith
    rw [abs_of_pos g1, abs_of_pos g2]
    nlinarith

theorem penalty_strict_monotone_witness :
    squaredLoss 3 (-1) < squaredLoss 12 (-1)
  ∧ absLoss 3 (-1) < absLoss 12 (-1)
  ∧ |objGrad 3 (-1)| < |objGrad 12 (-1)| :=
  penalty_strict_monotone (-1) 3 12 (by norm_num) (by norm_num) (by norm_num)

/-- C10: whatever result the absolute-loss evaluation returns carries the
metric name "overprediction_squared_penalty" — the identical name returned by
the squared-loss evaluation — while the custom winnings-approximation
evaluation is the only one returning the distinct name "custom_penalty". -/
theorem eval_metric_names (penalty : ℚ) (truth pred : List ℚ) :
    (∀ r : EvalResult, overprediction_penalty_absolute penalty truth pred = some r →
        r.name = "overprediction_squared_penalty")
  ∧ (∀ r : EvalResult, overprediction_penalty_squared penalty truth pred = some r →
        r.name = "overprediction_squared_penalty")
  ∧ (∀ r : EvalResult, overprediction_penalty_custom truth pred = some r →
        r.name = "custom_penalty") := by
  refine ⟨fun r h => ?_, fun r h => ?_, fun r h => ?_⟩ <;>
  · cases hnp : npSub truth pred with
    | none =>
      simp only [overprediction_penalty_absolute, overprediction_penalty_squared,
        overprediction_penalty_custom, hnp, Option.map_none'] at h
      cases h
    | some err =>
      simp only [overprediction_penalty_absolute, overprediction_penalty_squared,
        overprediction_penalty_custom, hnp, Option.map_some',
        Option.some.injEq] at h
      subst h
      rfl

theorem eval_metric_names_witness :
    ((⟨"overprediction_squared_penalty", 0, false⟩ : EvalResult).name
        = "overprediction_squared_penalty")
  ∧ ((⟨"custom_penalty", 0, false⟩ : EvalResult).name = "custom_penalty") :=
  ⟨(eval_metric_names 3 [(1:ℚ)] [(1:ℚ)]).1 ⟨"overprediction_squared_penalty", 0, false⟩
      (by norm_num [overprediction_penalty_absolute, npSub, npBinop, broadcastLen,
        broadcastTo, npMean, absLoss]),
   (eval_metric_names 3 [(1:ℚ)] [(1:ℚ)]).2.2 ⟨"custom_penalty", 0, false⟩
      (by norm_num [overprediction_penalty_custom, npSub, npBinop, broadcastLen,
        broadcastTo, npMean, customLoss])⟩
